import Mathlib

/-!
Verification of the sentiment-analysis microservice
(`src/app/main.py` — the Query Service, and `src/dashboard/app.py` — the
Analytics Reader) against its natural-language specification.

Shallow embedding conventions:
* Confidence scores are modelled as rationals (`ℚ`); the code passes them
  through untouched, so exact arithmetic is faithful.
* Timestamps are modelled as integers (seconds); the dashboard's
  `timedelta` windows become `3600`, `86400`, `604800`.
* The database session is modelled by an explicit `DBState`: committed
  rows, the store-assigned id and clock, and flags saying whether the
  fallible store operations (`db.commit()`, `db.refresh()`) succeed on
  this call.  `sessionsOpened` counts calls to `SessionLocal()`.
* Python exceptions are modelled with `Except` / explicit error outcomes.
-/

/-- One result dict produced by the Hugging Face pipeline:
`{'label': ..., 'score': ...}`. -/
structure PipelineOutput where
  label : String
  score : ℚ
deriving DecidableEq, Repr

/-- The loaded sentiment pipeline: maps input text to a list of candidate
results, or raises (`Except.error`).  `sentiment_pipeline` in
`src/app/main.py` is an `Option` of this (it is `none` when model loading
failed at startup). -/
def SentimentPipeline : Type := String → Except String (List PipelineOutput)

/-- A row of the `query_logs` table (class `QueryLog` in
`src/app/main.py`): `id` primary key, store-assigned `timestamp`,
`input_text NOT NULL`, and nullable `model_label` / `model_score`. -/
structure QueryLog where
  id : Nat
  timestamp : Int
  input_text : String
  model_label : Option String
  model_score : Option ℚ
deriving DecidableEq, Repr

/-- The state of the Log Store plus the per-call session environment:
`rows` are the committed rows, `nextId`/`now` are the store-assigned id
and clock for the next insert, `commitOk` / `refreshOk` say whether the
`db.commit()` / `db.refresh(new_log)` store round-trips succeed on this
call, and `sessionsOpened` counts `SessionLocal()` invocations. -/
structure DBState where
  rows : List QueryLog
  nextId : Nat
  now : Int
  commitOk : Bool
  refreshOk : Bool
  sessionsOpened : Nat
deriving DecidableEq, Repr

/-- Request body of `POST /query` (`class QueryRequest` in
`src/app/main.py`): the schema requires only that `text` be present and
be a string; no non-emptiness or length restriction. -/
structure QueryRequest where
  text : String
deriving DecidableEq, Repr

/-- Success response body of `POST /query` (`class QueryResponse`). -/
structure QueryResponse where
  input_text : String
  sentiment_label : String
  sentiment_score : ℚ
deriving DecidableEq, Repr

/-- Outcome of a `/query` call: either the success response or an
`HTTPException` with a status code and detail message. -/
inductive QueryOutcome where
  | success (resp : QueryResponse)
  | httpError (statusCode : Nat) (detail : String)
deriving DecidableEq, Repr

/-- The `/query` endpoint (`query_model` in `src/app/main.py`).

Control flow of the source, in order:
1. `if sentiment_pipeline is None: raise HTTPException(503, ...)` —
   before any `SessionLocal()` call, so the state is returned untouched;
2. `db = SessionLocal()` — models as incrementing `sessionsOpened`;
3. `model_result = sentiment_pipeline(request.text)` — may raise, caught
   by the catch-all `except` which rolls back and raises 500;
4. `model_result[0]` — raises `IndexError` on an empty list (same 500);
5. build `new_log` from the input text and the first result's
   label/score, `db.add`; `db.commit()` — on failure, rollback, 500; on
   success the row is durably appended and `nextId` advances;
6. `db.refresh(new_log)` — a store round-trip after the commit; if it
   raises, the catch-all rolls back (a no-op after commit) and raises
   500, but the committed row remains;
7. return the `QueryResponse`.
The `finally: db.close()` releases the session on every path. -/
def query_model (sentiment_pipeline : Option SentimentPipeline)
    (request : QueryRequest) (st : DBState) : QueryOutcome × DBState :=
  match sentiment_pipeline with
  | none => (.httpError 503 "Model is not available. Check server logs.", st)
  | some p =>
    let stOpen : DBState := { st with sessionsOpened := st.sessionsOpened + 1 }
    match p request.text with
    | .error e =>
      (.httpError 500 ("An internal server error occurred: " ++ e), stOpen)
    | .ok [] =>
      (.httpError 500 "An internal server error occurred: list index out of range", stOpen)
    | .ok (first :: _) =>
      let new_log : QueryLog :=
        { id := stOpen.nextId, timestamp := stOpen.now,
          input_text := request.text,
          model_label := some first.label,
          model_score := some first.score }
      if st.commitOk then
        let stCommitted : DBState :=
          { stOpen with rows := stOpen.rows ++ [new_log], nextId := stOpen.nextId + 1 }
        if st.refreshOk then
          (.success { input_text := request.text,
                      sentiment_label := first.label,
                      sentiment_score := first.score }, stCommitted)
        else
          (.httpError 500 "An internal server error occurred: could not refresh instance",
           stCommitted)
      else
        (.httpError 500 "An internal server error occurred: commit failed", stOpen)

/-- `DATABASE_URL = os.getenv(...); if not DATABASE_URL: raise ValueError(...)`
at module import in `src/app/main.py`: an absent (`none`) or empty
environment value is falsy in Python, so the Query Service process raises
and refuses to start; otherwise the value is used. -/
def main_read_database_url (env : Option String) : Except String String :=
  match env with
  | none => .error "DATABASE_URL environment variable not set"
  | some url =>
    if url = "" then .error "DATABASE_URL environment variable not set"
    else .ok url

/-- A dashboard dataframe row, as read back from `query_logs`.  The only
writer of the table is the Query Service, whose single insert path always
populates label and score (see the theorems on `query_model`), so rows
carry concrete values here. -/
structure DashRow where
  id : Nat
  timestamp : Int
  input_text : String
  model_label : String
  model_score : ℚ
deriving DecidableEq, Repr

/-- The Log Store as seen by the dashboard: the full `query_logs` table,
plus flags for whether `create_engine` and the read query succeed. -/
structure Store where
  table : List DashRow
  connectOk : Bool
  readOk : Bool
deriving DecidableEq, Repr

/-- Descending-timestamp order used by `ORDER BY timestamp DESC`. -/
def tsDesc (a b : DashRow) : Prop := b.timestamp ≤ a.timestamp

instance : DecidableRel tsDesc := fun a b => Int.decLe b.timestamp a.timestamp

instance : IsTotal DashRow tsDesc :=
  ⟨fun a b => (le_total b.timestamp a.timestamp).imp id id⟩

instance : IsTrans DashRow tsDesc :=
  ⟨fun _ _ _ hab hbc => le_trans hbc hab⟩

/-- `get_database_connection` in `src/dashboard/app.py`: if
`DATABASE_URL` is unset (or empty — falsy), it shows `st.error` and
returns `None`; if `create_engine` raises, it shows `st.error` and
returns `None`; otherwise it returns the engine.  It never terminates the
process. -/
def get_database_connection (env : Option String) (s : Store) : Option Store :=
  match env with
  | none => none
  | some url =>
    if url = "" then none
    else if s.connectOk then some s else none

/-- The SQL read issued by the dashboard:
`SELECT * FROM query_logs ORDER BY timestamp DESC LIMIT 5000` — the table
sorted by timestamp descending, truncated to 5000 rows; raises when the
store read fails. -/
def run_query (s : Store) : Except String (List DashRow) :=
  if s.readOk then .ok ((List.insertionSort tsDesc s.table).take 5000)
  else .error "Error fetching data"

/-- `load_data` in `src/dashboard/app.py`: with no engine it returns an
empty dataframe; otherwise it runs the bounded read and returns an empty
dataframe (after `st.error`) if the read raises. -/
def load_data (engine : Option Store) : List DashRow :=
  match engine with
  | none => []
  | some s =>
    match run_query s with
    | .ok df => df
    | .error _ => []

/-- The sidebar time-range selector values. -/
inductive TimeRange where
  | allTime
  | lastHour
  | last24Hours
  | last7Days
deriving DecidableEq, Repr

/-- Window width in seconds for each selector (`timedelta(hours=1)`,
`timedelta(hours=24)`, `timedelta(days=7)`); `All Time` has none. -/
def windowSeconds : TimeRange → Option Int
  | .allTime => none
  | .lastHour => some 3600
  | .last24Hours => some 86400
  | .last7Days => some 604800

/-- The time filter applied in `src/dashboard/app.py`:
`cutoff = datetime.now(utc) - window; df = df[df['timestamp'] > cutoff]`;
`All Time` applies no filter. -/
def apply_time_filter (tr : TimeRange) (now : Int) (df : List DashRow) :
    List DashRow :=
  match windowSeconds tr with
  | none => df
  | some w => df.filter (fun r => now - w < r.timestamp)

/-- `total_queries = len(df)`. -/
def total_queries (df : List DashRow) : Nat := df.length

/-- `positive_count = df[df['model_label'] == 'POSITIVE'].shape[0]`. -/
def positive_count (df : List DashRow) : Nat :=
  (df.filter (fun r => r.model_label = "POSITIVE")).length

/-- `negative_count = df[df['model_label'] == 'NEGATIVE'].shape[0]`. -/
def negative_count (df : List DashRow) : Nat :=
  (df.filter (fun r => r.model_label = "NEGATIVE")).length

/-- `avg_score = df['model_score'].mean() if total_queries > 0 else 0`. -/
def avg_score (df : List DashRow) : ℚ :=
  if total_queries df > 0 then
    (df.map (fun r => r.model_score)).sum / (total_queries df : ℚ)
  else 0

/-! Concrete fixtures used by witness and counterexample theorems. -/

/-- A pipeline returning a single candidate, as the distilbert model does. -/
def pipelineEx : SentimentPipeline := fun _ => .ok [⟨"POSITIVE", 49/50⟩]

/-- A pipeline returning two candidates: same primary result as
`pipelineEx`, plus a secondary candidate. -/
def pipelineEx2 : SentimentPipeline :=
  fun _ => .ok [⟨"POSITIVE", 49/50⟩, ⟨"NEGATIVE", 1/50⟩]

/-- An empty store state where both store operations succeed. -/
def dbEx : DBState := ⟨[], 1, 0, true, true, 0⟩

/-- An empty store state where `db.commit()` fails. -/
def dbExNoCommit : DBState := ⟨[], 1, 0, false, true, 0⟩

/-- An empty store state where `db.commit()` succeeds but the subsequent
`db.refresh(new_log)` round-trip fails. -/
def dbExNoRefresh : DBState := ⟨[], 1, 0, true, false, 0⟩

/-- The spec's end-to-end example request. -/
def reqEx : QueryRequest := ⟨"I love this product"⟩

/-- The success response for `reqEx` under `pipelineEx`. -/
def respEx : QueryResponse := ⟨"I love this product", "POSITIVE", 49/50⟩

/-- The row `query_model` logs for `reqEx` under `pipelineEx` from `dbEx`. -/
def rowQLEx : QueryLog := ⟨1, 0, "I love this product", some "POSITIVE", some (49/50)⟩

/-- The store state after the successful call from `dbEx`. -/
def dbExAfter : DBState := ⟨[rowQLEx], 2, 0, true, true, 1⟩

/-- A concrete dashboard row. -/
def rowEx : DashRow := ⟨1, 0, "I love this product", "POSITIVE", 49/50⟩

/-- A one-row dashboard dataset. -/
def dfEx : List DashRow := [rowEx]

/-- A healthy store holding `dfEx`. -/
def storeEx : Store := ⟨dfEx, true, true⟩

/-- A store holding `dfEx` whose read query fails. -/
def storeExReadFail : Store := ⟨dfEx, true, false⟩

/-! Shared helper lemmas. -/

/-- The POSITIVE-filtered and NEGATIVE-filtered row counts together never
exceed the row count: no row has both labels. -/
theorem length_filter_pos_add_neg_le (l : List DashRow) :
    (l.filter (fun r => r.model_label = "POSITIVE")).length +
      (l.filter (fun r => r.model_label = "NEGATIVE")).length ≤ l.length := by
  induction l with
  | nil => simp
  | cons a l ih =>
    simp only [List.filter_cons, List.length_cons]
    by_cases hp : a.model_label = "POSITIVE"
    · have hq : ¬ a.model_label = "NEGATIVE" := by
        rw [hp]; intro hq; exact absurd hq (by decide)
      simp [hp, hq]; omega
    · by_cases hq : a.model_label = "NEGATIVE" <;> simp [hp, hq] <;> omega

/-- Claim C1: for every non-empty input text, a `/query` call that returns
success produces exactly one new row in `query_logs` whose `input_text`
equals the submitted text and whose `model_label` and `model_score` equal
the `sentiment_label` and `sentiment_score` returned in the response
body. -/
theorem query_success_logs_exactly_one_row (p : SentimentPipeline)
    (req : QueryRequest) (st : DBState) (resp : QueryResponse) (st' : DBState)
    (_hne : req.text ≠ "")
    (h : query_model (some p) req st = (.success resp, st')) :
    ∃ r : QueryLog, st'.rows = st.rows ++ [r] ∧
      r.input_text = req.text ∧
      r.model_label = some resp.sentiment_label ∧
      r.model_score = some resp.sentiment_score := by
  simp only [query_model] at h
  split at h
  · simp at h
  · simp at h
  · rename_i first rest heq
    split at h
    · split at h
      · injection h with h1 h2
        injection h1 with h1
        subst h1
        subst h2
        exact ⟨_, rfl, rfl, rfl, rfl⟩
      · simp at h
    · simp at h

/-- Claim C1 witness: the spec's end-to-end example, run from the empty
store. -/
theorem query_success_logs_exactly_one_row_witness :
    reqEx.text ≠ "" ∧
    query_model (some pipelineEx) reqEx dbEx = (.success respEx, dbExAfter) ∧
    ∃ r : QueryLog, dbExAfter.rows = dbEx.rows ++ [r] ∧
      r.input_text = reqEx.text ∧
      r.model_label = some respEx.sentiment_label ∧
      r.model_score = some respEx.sentiment_score :=
  ⟨by decide, by rfl,
   query_success_logs_exactly_one_row pipelineEx reqEx dbEx respEx dbExAfter
     (by decide) (by rfl)⟩

/-- Claim C2: if the pipeline handle is `none`, `/query` returns the 503
ServiceUnavailable error and the state is untouched: no session is opened
(`sessionsOpened` unchanged) and no row is written. -/
theorem query_unavailable_no_write (req : QueryRequest) (st : DBState) :
    (query_model none req st).1 =
      .httpError 503 "Model is not available. Check server logs." ∧
    (query_model none req st).2 = st ∧
    (query_model none req st).2.sessionsOpened = st.sessionsOpened ∧
    (query_model none req st).2.rows = st.rows :=
  ⟨rfl, rfl, rfl, rfl⟩

/-- Claim C3 counterexample: with a loaded model, a writable store, but a
failing `db.refresh` round-trip, the call fails after the readiness check
and returns the 500 internal error — yet a row IS persisted, because the
failure happened after `db.commit()` and rollback cannot undo a commit.
This refutes "any failure after the readiness check leaves no row
persisted". -/
theorem query_failure_can_persist_row :
    (query_model (some pipelineEx) reqEx dbExNoRefresh).1 =
      .httpError 500 "An internal server error occurred: could not refresh instance" ∧
    (query_model (some pipelineEx) reqEx dbExNoRefresh).2.rows ≠
      dbExNoRefresh.rows := by
  exact ⟨rfl, by decide⟩

/-- Claim C3 (amended): if any failure occurs in `/query` after the
readiness check, the caller receives a 500 internal-error status rather
than success, and either the transaction is rolled back so no row is
persisted (all failures at or before the commit), or — when the failure
occurs after the commit has succeeded, i.e. in the refresh step — exactly
the one committed row for the submitted text remains persisted. -/
theorem query_failure_rollback (p : SentimentPipeline) (req : QueryRequest)
    (st : DBState) (out : QueryOutcome) (st' : DBState)
    (h : query_model (some p) req st = (out, st'))
    (hfail : ∀ resp : QueryResponse, out ≠ .success resp) :
    (∃ d : String, out = .httpError 500 d) ∧
    (st'.rows = st.rows ∨
      (st.commitOk = true ∧ st.refreshOk = false ∧
        ∃ r : QueryLog, r.input_text = req.text ∧
          st'.rows = st.rows ++ [r])) := by
  simp only [query_model] at h
  split at h
  · injection h with h1 h2
    subst h1; subst h2
    exact ⟨⟨_, rfl⟩, .inl rfl⟩
  · injection h with h1 h2
    subst h1; subst h2
    exact ⟨⟨_, rfl⟩, .inl rfl⟩
  · rename_i first rest heq
    split at h
    · rename_i hc
      split at h
      · rename_i hr
        injection h with h1 h2
        exact absurd h1.symm (hfail _)
      · rename_i hr
        injection h with h1 h2
        subst h1; subst h2
        exact ⟨⟨_, rfl⟩,
          .inr ⟨hc, by simpa using hr, _, rfl, rfl⟩⟩
    · rename_i hc
      injection h with h1 h2
      subst h1; subst h2
      exact ⟨⟨_, rfl⟩, .inl rfl⟩

/-- Claim C3 witness: a failing commit from the empty store yields the 500
error and leaves the store empty. -/
theorem query_failure_rollback_witness :
    query_model (some pipelineEx) reqEx dbExNoCommit =
      (.httpError 500 "An internal server error occurred: commit failed",
       ⟨[], 1, 0, false, true, 1⟩) ∧
    ((∃ d : String,
        (QueryOutcome.httpError 500 "An internal server error occurred: commit failed") =
          .httpError 500 d) ∧
     ((⟨[], 1, 0, false, true, 1⟩ : DBState).rows = dbExNoCommit.rows ∨
       (dbExNoCommit.commitOk = true ∧ dbExNoCommit.refreshOk = false ∧
         ∃ r : QueryLog, r.input_text = reqEx.text ∧
           (⟨[], 1, 0, false, true, 1⟩ : DBState).rows = dbExNoCommit.rows ++ [r]))) :=
  ⟨rfl,
   query_failure_rollback pipelineEx reqEx dbExNoCommit
     (.httpError 500 "An internal server error occurred: commit failed")
     ⟨[], 1, 0, false, true, 1⟩ rfl
     (fun _ hh => QueryOutcome.noConfusion hh)⟩

/-- Claim C7: `/query` uses only the first candidate of a multi-candidate
pipeline result — two pipelines agreeing on the first candidate produce
identical outcomes and identical store states, whatever their secondary
candidates. -/
theorem query_uses_only_first_candidate (p q : SentimentPipeline)
    (req : QueryRequest) (st : DBState) (first : PipelineOutput)
    (rest rest' : List PipelineOutput)
    (hp : p req.text = .ok (first :: rest))
    (hq : q req.text = .ok (first :: rest')) :
    query_model (some p) req st = query_model (some q) req st := by
  simp only [query_model, hp, hq]

/-- Claim C7 witness: the two-candidate pipeline behaves exactly like the
one-candidate pipeline with the same primary result. -/
theorem query_uses_only_first_candidate_witness :
    pipelineEx2 reqEx.text = .ok (⟨"POSITIVE", 49/50⟩ :: [⟨"NEGATIVE", 1/50⟩]) ∧
    pipelineEx reqEx.text = .ok (⟨"POSITIVE", 49/50⟩ :: []) ∧
    query_model (some pipelineEx2) reqEx dbEx =
      query_model (some pipelineEx) reqEx dbEx :=
  ⟨rfl, rfl,
   query_uses_only_first_candidate pipelineEx2 pipelineEx reqEx dbEx
     ⟨"POSITIVE", 49/50⟩ [⟨"NEGATIVE", 1/50⟩] [] rfl rfl⟩

/-- Claim C9: although the schema declares `model_label` and
`model_score` nullable, every row `/query` adds to the store is fully
populated: after any call, each row either was already present or has
non-null label and score. -/
theorem inserted_rows_never_null (sp : Option SentimentPipeline)
    (req : QueryRequest) (st : DBState) (out : QueryOutcome) (st' : DBState)
    (h : query_model sp req st = (out, st')) :
    ∀ r ∈ st'.rows,
      r ∈ st.rows ∨ (r.model_label.isSome ∧ r.model_score.isSome) := by
  cases sp with
  | none =>
    injection h with h1 h2
    subst h2
    exact fun r hr => .inl hr
  | some p =>
    simp only [query_model] at h
    split at h
    · injection h with h1 h2
      subst h2
      exact fun r hr => .inl hr
    · injection h with h1 h2
      subst h2
      exact fun r hr => .inl hr
    · rename_i first rest heq
      split at h
      · split at h
        · injection h with h1 h2
          subst h2
          intro r hr
          rcases List.mem_append.1 hr with hr | hr
          · exact .inl hr
          · rcases List.mem_singleton.1 hr with rfl
            exact .inr ⟨rfl, rfl⟩
        · injection h with h1 h2
          subst h2
          intro r hr
          rcases List.mem_append.1 hr with hr | hr
          · exact .inl hr
          · rcases List.mem_singleton.1 hr with rfl
            exact .inr ⟨rfl, rfl⟩
      · injection h with h1 h2
        subst h2
        exact fun r hr => .inl hr

/-- Claim C9 witness: the row logged by the end-to-end example has
non-null label and score. -/
theorem inserted_rows_never_null_witness :
    query_model (some pipelineEx) reqEx dbEx = (.success respEx, dbExAfter) ∧
    (rowQLEx ∈ dbEx.rows ∨
      (rowQLEx.model_label.isSome ∧ rowQLEx.model_score.isSome)) :=
  ⟨rfl,
   inserted_rows_never_null (some pipelineEx) reqEx dbEx (.success respEx)
     dbExAfter rfl rowQLEx (List.Mem.head _)⟩

/-- Claim C10: a request whose `text` is the empty string is accepted:
`QueryRequest` requires only a string field, and with the model loaded and
the store operations succeeding, `/query` on `""` runs inference, logs
one row, and returns the success response exactly as for non-empty
input. -/
theorem empty_text_accepted (p : SentimentPipeline) (st : DBState)
    (first : PipelineOutput) (rest : List PipelineOutput)
    (hp : p "" = .ok (first :: rest))
    (hc : st.commitOk = true) (hr : st.refreshOk = true) :
    query_model (some p) ⟨""⟩ st =
      (.success ⟨"", first.label, first.score⟩,
       { st with
          sessionsOpened := st.sessionsOpened + 1,
          rows := st.rows ++
            [⟨st.nextId, st.now, "", some first.label, some first.score⟩],
          nextId := st.nextId + 1 }) := by
  simp only [query_model, hp, hc, hr, if_true]

/-- Claim C10 witness: the empty-text request succeeds and logs a row
from the empty store. -/
theorem empty_text_accepted_witness :
    pipelineEx "" = .ok (⟨"POSITIVE", 49/50⟩ :: []) ∧
    dbEx.commitOk = true ∧ dbEx.refreshOk = true ∧
    query_model (some pipelineEx) ⟨""⟩ dbEx =
      (.success ⟨"", "POSITIVE", 49/50⟩,
       ⟨[⟨1, 0, "", some "POSITIVE", some (49/50)⟩], 2, 0, true, true, 1⟩) :=
  ⟨rfl, rfl, rfl,
   empty_text_accepted pipelineEx dbEx ⟨"POSITIVE", 49/50⟩ [] rfl rfl rfl⟩

/-- Claim C4: over any filtered record set, `avg_score` is 0 when the set
is empty, and when the set is non-empty, `positive_count` plus
`negative_count` is at most `total_queries` and `avg_score` is the
arithmetic mean of the `model_score` values in the set. -/
theorem aggregation_correct (df : List DashRow) :
    (df = [] → avg_score df = 0) ∧
    (0 < total_queries df →
      positive_count df + negative_count df ≤ total_queries df ∧
      avg_score df =
        (df.map (fun r => r.model_score)).sum / (total_queries df : ℚ)) := by
  constructor
  · intro h
    subst h
    rfl
  · intro h
    refine ⟨length_filter_pos_add_neg_le df, ?_⟩
    simp only [avg_score, if_pos h]

/-- Claim C4 witness: the aggregation facts on the empty set and on the
one-row set `dfEx`. -/
theorem aggregation_correct_witness :
    avg_score [] = 0 ∧
    (0 < total_queries dfEx ∧
      positive_count dfEx + negative_count dfEx ≤ total_queries dfEx ∧
      avg_score dfEx =
        (dfEx.map (fun r => r.model_score)).sum / (total_queries dfEx : ℚ)) :=
  ⟨(aggregation_correct []).1 rfl,
   by decide, (aggregation_correct dfEx).2 (by decide)⟩

/-- Claim C5: for a fixed dataset and fixed reference time, the
time-range filter narrows monotonically — Last Hour ⊆ Last 24 Hours ⊆
Last 7 Days ⊆ All Time. -/
theorem time_filter_monotone (now : Int) (df : List DashRow) :
    apply_time_filter .lastHour now df ⊆ apply_time_filter .last24Hours now df ∧
    apply_time_filter .last24Hours now df ⊆ apply_time_filter .last7Days now df ∧
    apply_time_filter .last7Days now df ⊆ apply_time_filter .allTime now df := by
  refine ⟨?_, ?_, ?_⟩ <;> intro r hr <;>
    simp only [apply_time_filter, windowSeconds, List.mem_filter,
      decide_eq_true_eq] at hr ⊢
  · exact ⟨hr.1, by omega⟩
  · exact ⟨hr.1, by omega⟩
  · exact hr.1

/-- Claim C5 witness: a member of the Last Hour view is a member of the
Last 24 Hours view, on the concrete dataset. -/
theorem time_filter_monotone_witness :
    rowEx ∈ apply_time_filter .last24Hours 0 dfEx :=
  (time_filter_monotone 0 dfEx).1 (List.Mem.head _)

/-- Claim C6: `load_data` returns at most 5000 rows, sorted by timestamp
descending, all drawn from the store's table, and those rows are the MOST
RECENT ones: any table row left out of the result has a timestamp no
greater than that of every returned row; when the store read fails
(or there is no engine) it returns the empty frame rather than raising;
and when the whole table fits in the limit, the result is exactly the
table (as a permutation). -/
theorem load_data_bounded_sorted (engine : Option Store) :
    (load_data engine).length ≤ 5000 ∧
    List.Sorted tsDesc (load_data engine) ∧
    (∀ r ∈ load_data engine, ∃ s, engine = some s ∧ r ∈ s.table) ∧
    (∀ s, engine = some s → ∀ r ∈ load_data engine, ∀ x ∈ s.table,
      x ∉ load_data engine → x.timestamp ≤ r.timestamp) ∧
    (∀ s, engine = some s → s.readOk = false → load_data engine = []) ∧
    (∀ s, engine = some s → s.readOk = true → s.table.length ≤ 5000 →
      List.Perm (load_data engine) s.table) := by
  cases engine with
  | none =>
    refine ⟨by simp [load_data], List.sorted_nil, ?_, ?_, ?_, ?_⟩
    · intro r hr
      simp [load_data] at hr
    · intro s hs
      cases hs
    · intro s hs
      cases hs
    · intro s hs
      cases hs
  | some s =>
    by_cases hread : s.readOk
    · have hld : load_data (some s) =
          (List.insertionSort tsDesc s.table).take 5000 := by
        simp [load_data, run_query, hread]
      refine ⟨?_, ?_, ?_, ?_, ?_, ?_⟩
      · rw [hld]
        exact (List.length_take 5000 _).trans_le (min_le_left _ _)
      · rw [hld]
        exact List.Pairwise.sublist (List.take_sublist _ _)
          (List.sorted_insertionSort tsDesc s.table)
      · intro r hr
        rw [hld] at hr
        exact ⟨s, rfl,
          (List.perm_insertionSort tsDesc s.table).subset
            (List.take_subset _ _ hr)⟩
      · intro s' hs' r hr x hx hnx
        injection hs' with hs'
        subst hs'
        rw [hld] at hr hnx
        have hxL : x ∈ List.insertionSort tsDesc s.table :=
          ((List.perm_insertionSort tsDesc s.table).mem_iff).2 hx
        have hxdrop : x ∈ (List.insertionSort tsDesc s.table).drop 5000 := by
          have hsplit : x ∈ (List.insertionSort tsDesc s.table).take 5000 ++
              (List.insertionSort tsDesc s.table).drop 5000 := by
            rw [List.take_append_drop]
            exact hxL
          rcases List.mem_append.1 hsplit with h | h
          · exact absurd h hnx
          · exact h
        have hpw : List.Pairwise tsDesc
            ((List.insertionSort tsDesc s.table).take 5000 ++
              (List.insertionSort tsDesc s.table).drop 5000) := by
          rw [List.take_append_drop]
          exact List.sorted_insertionSort tsDesc s.table
        exact (List.pairwise_append.1 hpw).2.2 r hr x hxdrop
      · intro s' hs' hfail
        injection hs' with hs'
        subst hs'
        rw [hread] at hfail
        cases hfail
      · intro s' hs' _ hlen
        injection hs' with hs'
        subst hs'
        rw [hld]
        have hlen' : (List.insertionSort tsDesc s.table).length ≤ 5000 := by
          rw [(List.perm_insertionSort tsDesc s.table).length_eq]
          exact hlen
        rw [List.take_of_length_le hlen']
        exact List.perm_insertionSort tsDesc s.table
    · have hld : load_data (some s) = [] := by
        simp [load_data, run_query, hread]
      refine ⟨by simp [hld], by simp [hld, List.Sorted], ?_, ?_, ?_, ?_⟩
      · intro r hr
        simp [hld] at hr
      · intro s' hs' r hr
        rw [hld] at hr
        exact absurd hr (List.not_mem_nil r)
      · intro s' hs' _
        exact hld
      · intro s' hs' hok
        injection hs' with hs'
        subst hs'
        exact absurd hok (by simpa using hread)

/-- Claim C6 witness: a failing read returns the empty frame, and a
healthy read of a small table returns exactly that table. -/
theorem load_data_bounded_sorted_witness :
    load_data (some storeExReadFail) = [] ∧
    List.Perm (load_data (some storeEx)) storeEx.table :=
  ⟨(load_data_bounded_sorted (some storeExReadFail)).2.2.2.2.1
     storeExReadFail rfl rfl,
   (load_data_bounded_sorted (some storeEx)).2.2.2.2.2
     storeEx rfl rfl (by decide)⟩

/-- Claim C8 counterexample: with `DATABASE_URL` absent, the dashboard
component does NOT fail hard: `get_database_connection` returns `None`
(after displaying an error) and the page proceeds to render with an empty
dataset — refuting "startup fails hard for every component that reads the
connection string". -/
theorem dashboard_survives_missing_url :
    get_database_connection none storeEx = none ∧
    load_data (get_database_connection none storeEx) = [] :=
  ⟨rfl, rfl⟩

/-- Claim C8 (amended): if `DATABASE_URL` is absent (or empty — falsy in
Python), the Query Service fails hard at startup (`raise ValueError`),
while the dashboard instead degrades: it obtains no engine and renders
with an empty dataset rather than refusing to start. -/
theorem missing_database_url_behaviour (env : Option String)
    (h : env = none ∨ env = some "") :
    main_read_database_url env =
      .error "DATABASE_URL environment variable not set" ∧
    ∀ s : Store, get_database_connection env s = none ∧
      load_data (get_database_connection env s) = [] := by
  rcases h with h | h <;> subst h <;>
    exact ⟨rfl, fun s => ⟨rfl, rfl⟩⟩

/-- Claim C8 witness: the amended behaviour at the concrete absent
environment and concrete store. -/
theorem missing_database_url_behaviour_witness :
    ((none : Option String) = none ∨ (none : Option String) = some "") ∧
    main_read_database_url none =
      .error "DATABASE_URL environment variable not set" ∧
    get_database_connection none storeEx = none ∧
    load_data (get_database_connection none storeEx) = [] :=
  ⟨Or.inl rfl, (missing_database_url_behaviour none (Or.inl rfl)).1,
   (missing_database_url_behaviour none (Or.inl rfl)).2 storeEx⟩
